import Mathlib

/-!
Verification of the FoodieSpot reservation agent (Python sources:
src/data_manager.py, src/tools.py, src/agent.py) against its
natural-language specification.

Text is modelled as lists of characters (`Str`), so that every operation
reduces in the kernel.  Python string methods used by the sources
(`lower`, `split`, `capitalize`, the `in` operator, f-string decimal
formatting of integers) are embedded as executable functions below.
The pseudo-random draws of `random.random() > 0.2` and
`random.randint(10000, 99999)` are passed as explicit arguments, and the
wall clock of `datetime.datetime.now().isoformat()` is an explicit
argument as well, so the embedded functions are pure.
-/

namespace FoodieSpot

/-- Text as a list of characters. -/
abbrev Str := List Char

/-- Coerce a Lean string literal to the character-list representation. -/
def str (s : String) : Str := s.data

/-- Python `str.lower()` (ASCII range, which covers the catalog data). -/
def lowerStr (s : Str) : Str := s.map Char.toLower

/-- Python `str.capitalize()` on an all-lowercase ASCII word. -/
def capStr : Str → Str
  | [] => []
  | c :: cs => c.toUpper :: cs

/-- Python membership test `needle in hay` on strings. -/
def subStr (needle : Str) : Str → Bool
  | [] => needle.isEmpty
  | hay@(_ :: cs) => needle.isPrefixOf hay || subStr needle cs

/-- Python `s.split(sep)` for a single-character separator `sep`. -/
def splitOnCh (sep : Char) : Str → List Str
  | [] => [[]]
  | c :: cs =>
    let r := splitOnCh sep cs
    if c = sep then [] :: r
    else
      match r with
      | [] => [[c]]
      | g :: gs => (c :: g) :: gs

/-- Value of a digit string, most significant digit first. -/
def digitsVal (s : Str) : Nat := s.foldl (fun a c => a * 10 + (c.toNat - 48)) 0

/-- All characters are decimal digits and the string is nonempty. -/
def allDigits (s : Str) : Bool := !s.isEmpty && s.all Char.isDigit

/-- The character for a single decimal digit. -/
def digitCh (n : Nat) : Char := Char.ofNat (48 + n)

/-- Fueled helper for the decimal digit list; the fuel only serves
structural recursion and is irrelevant once it exceeds the argument. -/
def natDigitsAux : Nat → Nat → Str
  | 0, _ => []
  | fuel + 1, n =>
    if n < 10 then [digitCh n]
    else natDigitsAux fuel (n / 10) ++ [digitCh (n % 10)]

/-- Decimal digit list of a natural number (Python `str(n)` for `n ≥ 0`). -/
def natDigits (n : Nat) : Str := natDigitsAux (n + 1) n

theorem natDigitsAux_fuel : ∀ n : Nat, ∀ f g : Nat, n < f → n < g →
    natDigitsAux f n = natDigitsAux g n := by
  intro n
  induction n using Nat.strong_induction_on with
  | _ n ih =>
    intro f g hf hg
    match f, g with
    | f' + 1, g' + 1 =>
      by_cases h : n < 10
      · simp [natDigitsAux, h]
      · have hd : n / 10 < n := Nat.div_lt_self (by omega) (by omega)
        simp only [natDigitsAux, if_neg h]
        rw [ih (n / 10) hd f' g' (by omega) (by omega)]

theorem digitCh_inj : ∀ m < 10, ∀ n < 10, digitCh m = digitCh n → m = n := by
  decide

theorem natDigits_eq (k : Nat) :
    natDigits k = if k < 10 then [digitCh k] else natDigits (k / 10) ++ [digitCh (k % 10)] := by
  show natDigitsAux (k + 1) k = _
  by_cases h : k < 10
  · simp [natDigitsAux, h]
  · simp only [natDigitsAux, if_neg h]
    rw [natDigitsAux_fuel (k / 10) k (k / 10 + 1)
      (Nat.div_lt_self (by omega) (by omega)) (by omega)]
    rfl

theorem natDigits_ne_nil (n : Nat) : natDigits n ≠ [] := by
  rw [natDigits_eq]
  split
  · simp
  · simp

theorem natDigits_len (n : Nat) (h : 10 ≤ n) : 2 ≤ (natDigits n).length := by
  rw [natDigits_eq]
  split
  · omega
  · have h1 := natDigits_ne_nil (n / 10)
    have h2 : 1 ≤ (natDigits (n / 10)).length := by
      cases hE : natDigits (n / 10) with
      | nil => exact absurd hE h1
      | cons a t => simp
    simp only [List.length_append, List.length_cons, List.length_nil]
    omega

theorem natDigits_inj : ∀ m n : Nat, natDigits m = natDigits n → m = n := by
  intro m
  induction m using Nat.strong_induction_on with
  | _ m ih =>
    intro n h
    by_cases hm : m < 10 <;> by_cases hn : n < 10
    · rw [natDigits_eq m, if_pos hm, natDigits_eq n, if_pos hn] at h
      exact digitCh_inj m hm n hn (List.cons_eq_cons.mp h).1
    · exfalso
      have hl := natDigits_len n (by omega)
      rw [natDigits_eq m, if_pos hm] at h
      rw [← h] at hl
      simp at hl
    · exfalso
      have hl := natDigits_len m (by omega)
      rw [natDigits_eq n, if_pos hn] at h
      rw [h] at hl
      simp at hl
    · rw [natDigits_eq m, if_neg hm, natDigits_eq n, if_neg hn] at h
      have hrev := congrArg List.reverse h
      simp only [List.reverse_append, List.reverse_cons, List.reverse_nil,
        List.nil_append, List.singleton_append, List.cons.injEq,
        List.reverse_inj] at hrev
      have hmod : m % 10 = n % 10 :=
        digitCh_inj (m % 10) (Nat.mod_lt m (by omega)) (n % 10)
          (Nat.mod_lt n (by omega)) hrev.1
      have hdiv : m / 10 = n / 10 :=
        ih (m / 10) (Nat.div_lt_self (by omega) (by omega)) (n / 10) hrev.2
      omega

/-! ## Calendar: `datetime.datetime.strptime` with formats `%Y-%m-%d` and `%H:%M` -/

/-- Gregorian leap-year rule, as used by `datetime.date`. -/
def isLeap (y : Nat) : Bool := y % 4 == 0 && (y % 100 != 0 || y % 400 == 0)

/-- Days in a month of the proleptic Gregorian calendar. -/
def daysInMonth (y m : Nat) : Nat :=
  if m = 2 then (if isLeap y then 29 else 28)
  else if m = 4 ∨ m = 6 ∨ m = 9 ∨ m = 11 then 30
  else 31

/-- A parsed calendar date: year, month, day. -/
structure Date where
  year : Nat
  month : Nat
  day : Nat
deriving DecidableEq, Repr

/-- `datetime.datetime.strptime(s, "%Y-%m-%d").date()`: four year digits,
one or two month digits, one or two day digits, a real calendar date in
years 1 to 9999.  Returns `none` where Python raises `ValueError`. -/
def parseDate (s : Str) : Option Date :=
  match splitOnCh '-' s with
  | [ys, ms, ds] =>
    if allDigits ys && ys.length == 4 && allDigits ms && ms.length ≤ 2
        && allDigits ds && ds.length ≤ 2 then
      let y := digitsVal ys
      let m := digitsVal ms
      let d := digitsVal ds
      if 1 ≤ y && 1 ≤ m && m ≤ 12 && 1 ≤ d && d ≤ daysInMonth y m then
        some ⟨y, m, d⟩
      else none
    else none
  | _ => none

/-- `datetime.datetime.strptime(s, "%H:%M").time()` as minutes after
midnight: one or two hour digits below 24, one or two minute digits
below 60.  Returns `none` where Python raises `ValueError`. -/
def parseTime (s : Str) : Option Nat :=
  match splitOnCh ':' s with
  | [hs, ms] =>
    if allDigits hs && hs.length ≤ 2 && allDigits ms && ms.length ≤ 2 then
      let h := digitsVal hs
      let m := digitsVal ms
      if h ≤ 23 && m ≤ 59 then some (h * 60 + m) else none
    else none
  | _ => none

/-- Day of the week of a Gregorian date (Sakamoto), 0 = Sunday. -/
def dayOfWeek (dt : Date) : Nat :=
  let t := [0, 3, 2, 5, 0, 3, 5, 1, 4, 6, 2, 4]
  let y := if dt.month < 3 then dt.year - 1 else dt.year
  (y + y / 4 + y / 400 + t.getD (dt.month - 1) 0 + dt.day - y / 100) % 7

/-- `booking_date.strftime("%A").lower()`. -/
def dayName (dt : Date) : Str :=
  [str "sunday", str "monday", str "tuesday", str "wednesday",
   str "thursday", str "friday", str "saturday"].getD (dayOfWeek dt) []

/-! ## Data model (src/data_manager.py)

Restaurant records carry the fields the verified operations read; the
`id` and `rating` fields are never consulted by the DataManager methods
under verification and are omitted.  Absent `tags` in the source data is
the empty list (line 84 reads tags with an empty-list default). -/

structure Restaurant where
  name : Str
  cuisine : Str
  location : Str
  address : Str
  seating_capacity : Int
  opening_hours : List (Str × Str)
  description : Str
  tags : List Str
deriving DecidableEq, Repr

/-- Python `dict.get(k)` on an association list. -/
def assocGet {α : Type} : List (Str × α) → Str → Option α
  | [], _ => none
  | p :: t, key => if p.1 = key then some p.2 else assocGet t key

/-- A reservation record as stored in `DataManager.reservations`. -/
structure Reservation where
  confirmation_code : Str
  restaurant_name : Str
  date : Str
  time : Str
  party_size : Int
  user_name : Str
  user_phone : Str
  created_at : Str
deriving DecidableEq, Repr

/-- Python dict assignment `d[k] = v`: replace in place if the key is
present, otherwise append. -/
def dictInsert (l : List (Str × Reservation)) (k : Str) (v : Reservation) :
    List (Str × Reservation) :=
  if (assocGet l k).isSome then
    l.map (fun p => if p.1 = k then (k, v) else p)
  else l ++ [(k, v)]

/-- The mutable state of a `DataManager`: the catalog (never mutated
after load) and the in-memory reservation map. -/
structure DMState where
  restaurants : List Restaurant
  reservations : List (Str × Reservation)
deriving DecidableEq, Repr

/-! ## DataManager.find_restaurant_by_name (lines 90-124) -/

/-- Sort key of line 121: absolute difference of record name length and query length. -/
def lenKey (query : Str) (r : Restaurant) : Nat :=
  ((r.name.length : Int) - query.length).natAbs

/-- Stable insertion used to model `list.sort(key=...)` (Python sorts are
stable; any stable sort by the same key yields the same list). -/
def insSorted (key : Restaurant → Nat) (r : Restaurant) :
    List Restaurant → List Restaurant
  | [] => [r]
  | x :: xs =>
    if key x < key r then x :: insSorted key r xs else r :: x :: xs

/-- Stable sort by `key`, modelling `matches.sort(key=...)`. -/
def sortByKey (key : Restaurant → Nat) (l : List Restaurant) : List Restaurant :=
  l.foldr (insSorted key) []

/-- `DataManager.find_restaurant_by_name`: exact case-insensitive match
first; otherwise case-insensitive substring matches, sorted by closeness
of name length when there are several. -/
def find_restaurant_by_name (rs : List Restaurant) (name : Str) :
    Option Restaurant :=
  if name.isEmpty then none
  else
    let nameLower := lowerStr name
    match rs.find? (fun r => lowerStr r.name == nameLower) with
    | some r => some r
    | none =>
      let ms := rs.filter (fun r => subStr nameLower (lowerStr r.name))
      match ms with
      | [] => none
      | [r] => some r
      | _ => (sortByKey (lenKey name) ms).head?

/-! ## DataManager.check_availability (lines 126-210) -/

/-- The result dictionary of `check_availability`; keys absent from a
given return are `none`. -/
structure AvailResult where
  available : Bool
  message : Str
  restaurant : Option Str := none
  date : Option Str := none
  time : Option Str := none
  party_size : Option Int := none
  opening_hours : Option Str := none
deriving DecidableEq, Repr

/-- A single apostrophe (the quotes of the Python f-strings). -/
def quo : Str := [Char.ofNat 39]

/-- Python `str(n)` for an `int` value. -/
def intRepr (n : Int) : Str :=
  if n < 0 then '-' :: natDigits n.natAbs else natDigits n.natAbs

/-- The result of the 80 percent pseudo-random draw of lines 187-203;
`draw` is the value of `random.random() > 0.2`. -/
def drawResult (r : Restaurant) (date time : Str) (ps : Int) (draw : Bool) :
    AvailResult :=
  if draw then
    { available := true
      message := str "Table for " ++ intRepr ps ++ str " is available at "
        ++ r.name ++ str " on " ++ date ++ str " at " ++ time ++ str "."
      restaurant := some r.name
      date := some date
      time := some time
      party_size := some ps }
  else
    { available := false
      message := str "Sorry, " ++ r.name
        ++ str " is fully booked at that time. Please try another time."
      restaurant := some r.name }

/-- The `except ValueError` return of lines 205-210; `detail` stands for
`str(e)`, whose exact text no verified claim depends on. -/
def invalidResult (restaurant_name detail : Str) : AvailResult :=
  { available := false
    message := str "Invalid date or time format: " ++ detail
    restaurant := some restaurant_name }

/-- `DataManager.check_availability`, with the pseudo-random draw passed
in as `draw` (the truth value of `random.random() > 0.2`). -/
def check_availability (rs : List Restaurant) (restaurant_name date time : Str)
    (party_size : Int) (draw : Bool) : AvailResult :=
  match find_restaurant_by_name rs restaurant_name with
  | none =>
    { available := false
      message := str "Restaurant " ++ quo ++ restaurant_name ++ quo
        ++ str " not found." }
  | some r =>
    match parseDate date with
    | none => invalidResult restaurant_name (str "unmatched date")
    | some bookingDate =>
      match parseTime time with
      | none => invalidResult restaurant_name (str "unmatched time")
      | some bookingTime =>
        if party_size > r.seating_capacity then
          { available := false
            message := str "Party size of " ++ intRepr party_size
              ++ str " exceeds the maximum capacity of "
              ++ intRepr r.seating_capacity ++ str "."
            restaurant := some r.name }
        else
          let day := dayName bookingDate
          if assocGet r.opening_hours day == some (str "Closed") then
            { available := false
              message := r.name ++ str " is closed on " ++ capStr day ++ str "."
              restaurant := some r.name }
          else
            let hours := (assocGet r.opening_hours day).getD []
            if subStr (str "-") hours then
              match splitOnCh '-' hours with
              | [openStr, closeStr] =>
                match parseTime openStr, parseTime closeStr with
                | some openT, some closeT =>
                  if bookingTime < openT || bookingTime > closeT then
                    { available := false
                      message := r.name ++ str " is only open from " ++ openStr
                        ++ str " to " ++ closeStr ++ str " on " ++ capStr day
                        ++ str "."
                      restaurant := some r.name
                      opening_hours := some hours }
                  else drawResult r date time party_size draw
                | _, _ => invalidResult restaurant_name (str "unmatched hours")
              | _ => invalidResult restaurant_name (str "unpack")
            else drawResult r date time party_size draw

/-! ## DataManager.make_reservation (lines 212-264) -/

/-- The result dictionary of `make_reservation`. -/
structure BookResult where
  success : Bool
  message : Str
  restaurant : Str
  confirmation_code : Option Str := none
  date : Option Str := none
  time : Option Str := none
  party_size : Option Int := none
  user_name : Option Str := none
deriving DecidableEq, Repr

/-- The confirmation code string `f"RS-{n}"`. -/
def codeOf (n : Nat) : Str := str "RS-" ++ natDigits n

/-- `DataManager.make_reservation`.  `draw` is the random draw consumed
by the internal availability check, `codeNum` the value of
`random.randint(10000, 99999)`, and `now` the value of
`datetime.datetime.now().isoformat()`. -/
def make_reservation (st : DMState) (restaurant_name date time : Str)
    (party_size : Int) (user_name user_phone : Str) (draw : Bool)
    (codeNum : Nat) (now : Str) : BookResult × DMState :=
  let availability :=
    check_availability st.restaurants restaurant_name date time party_size draw
  if !availability.available then
    ({ success := false
       message := availability.message
       restaurant := restaurant_name }, st)
  else
    let code := codeOf codeNum
    let resv : Reservation :=
      { confirmation_code := code
        restaurant_name := restaurant_name
        date := date
        time := time
        party_size := party_size
        user_name := user_name
        user_phone := user_phone
        created_at := now }
    ({ success := true
       confirmation_code := some code
       message := str "Reservation confirmed at " ++ restaurant_name
         ++ str " for " ++ intRepr party_size ++ str " people on " ++ date
         ++ str " at " ++ time ++ str "."
       restaurant := restaurant_name
       date := some date
       time := some time
       party_size := some party_size
       user_name := some user_name },
     { st with reservations := dictInsert st.reservations code resv })

/-! ## Python dynamic integer arguments

`party_size` reaches `get_restaurants` and the tool functions across a
JSON boundary, so it may arrive as an integer or as a string; `PyNum`
models the two shapes the schemas and callers produce, `pyInt` models
the Python `int(x)` coercion on them (decimal digits with an optional
sign for strings; `none` where Python raises `ValueError` or
`TypeError`), and `numTruthy` models Python truthiness. -/

inductive PyNum where
  | ofInt (n : Int)
  | ofStr (s : Str)
deriving DecidableEq, Repr

/-- `int(s)` on a string: optional sign followed by one or more digits. -/
def strToInt (s : Str) : Option Int :=
  match s with
  | '-' :: t => if allDigits t then some (-(digitsVal t : Int)) else none
  | '+' :: t => if allDigits t then some (digitsVal t) else none
  | t => if allDigits t then some (digitsVal t) else none

/-- `int(x)` on a tool argument. -/
def pyInt : PyNum → Option Int
  | .ofInt n => some n
  | .ofStr s => strToInt s

/-- Python truthiness of such a value (`0` and `""` are falsy). -/
def numTruthy : PyNum → Bool
  | .ofInt n => n != 0
  | .ofStr s => !s.isEmpty

/-! ## DataManager.get_restaurants (lines 38-88)

The criteria dictionary: an absent key is `none`; `some` holds the value
under the key, whose Python truthiness gates the filter (lines 54, 61,
69, 78).  The whole argument is `none` when the caller passes `None` or
an empty dictionary (line 48). -/

structure Criteria where
  cuisine : Option Str := none
  location : Option Str := none
  party_size : Option PyNum := none
  text : Option Str := none
deriving DecidableEq, Repr

/-- The cuisine filter of lines 54-58. -/
def applyCuisine (c : Option Str) (l : List Restaurant) : List Restaurant :=
  match c with
  | some s =>
    if !s.isEmpty then
      let cu := lowerStr s
      l.filter (fun r => lowerStr r.cuisine == cu || subStr cu (lowerStr r.cuisine))
    else l
  | none => l

/-- The location filter of lines 61-66. -/
def applyLocation (c : Option Str) (l : List Restaurant) : List Restaurant :=
  match c with
  | some s =>
    if !s.isEmpty then
      let lo := lowerStr s
      l.filter (fun r => lowerStr r.location == lo
        || subStr lo (lowerStr r.location) || subStr lo (lowerStr r.address))
    else l
  | none => l

/-- The party-size filter of lines 69-75: `int()` failures are silently
ignored (the `except` clause). -/
def applyPartySize (c : Option PyNum) (l : List Restaurant) : List Restaurant :=
  match c with
  | some v =>
    if numTruthy v then
      match pyInt v with
      | some n => l.filter (fun r => r.seating_capacity ≥ n)
      | none => l
    else l
  | none => l

/-- The text filter of lines 78-86. -/
def applyText (c : Option Str) (l : List Restaurant) : List Restaurant :=
  match c with
  | some s =>
    if !s.isEmpty then
      let tx := lowerStr s
      l.filter (fun r => subStr tx (lowerStr r.name)
        || subStr tx (lowerStr r.description)
        || r.tags.any (fun tag => subStr tx (lowerStr tag)))
    else l
  | none => l

/-- `DataManager.get_restaurants`: the four filters applied in sequence. -/
def get_restaurants (rs : List Restaurant) (criteria : Option Criteria) :
    List Restaurant :=
  match criteria with
  | none => rs
  | some cr =>
    applyText cr.text (applyPartySize cr.party_size
      (applyLocation cr.location (applyCuisine cr.cuisine rs)))

/-! ## Tool Layer (src/tools.py) -/

/-- A tool result: either the `{"error": True, "message": ...}` dictionary
produced by the validation at the tool boundary, or the dictionary
delegated from the Catalog Store. -/
inductive ToolResult (α : Type) where
  | err (message : Str)
  | ok (payload : α)
deriving DecidableEq, Repr

/-- `tools.check_availability` (lines 96-137). -/
def tools_check_availability (st : DMState) (restaurant_name date time : Str)
    (party_size : PyNum) (draw : Bool) : ToolResult AvailResult :=
  match pyInt party_size with
  | none => .err (str "Invalid party size. Please provide a number.")
  | some ps =>
    if ps ≤ 0 then
      .err (str "Party size must be a positive number.")
    else if date.isEmpty || (splitOnCh '-' date).length ≠ 3 then
      .err (str "Invalid date format. Please use YYYY-MM-DD format.")
    else if time.isEmpty || (splitOnCh ':' time).length ≠ 2 then
      .err (str "Invalid time format. Please use HH:MM format (24-hour).")
    else .ok (check_availability st.restaurants restaurant_name date time ps draw)

/-- `tools.make_reservation` (lines 139-199); returns the result together
with the possibly updated Catalog Store state. -/
def tools_make_reservation (st : DMState) (restaurant_name date time : Str)
    (party_size : PyNum) (user_name user_phone : Str) (draw : Bool)
    (codeNum : Nat) (now : Str) : ToolResult BookResult × DMState :=
  match pyInt party_size with
  | none => (.err (str "Invalid party size. Please provide a number."), st)
  | some ps =>
    if ps ≤ 0 then
      (.err (str "Party size must be a positive number."), st)
    else if user_name.isEmpty then
      (.err (str "Please provide your name for the reservation."), st)
    else if user_phone.isEmpty then
      (.err (str "Please provide a contact phone number for the reservation."), st)
    else if date.isEmpty || (splitOnCh '-' date).length ≠ 3 then
      (.err (str "Invalid date format. Please use YYYY-MM-DD format."), st)
    else if time.isEmpty || (splitOnCh ':' time).length ≠ 2 then
      (.err (str "Invalid time format. Please use HH:MM format (24-hour)."), st)
    else
      let r := make_reservation st restaurant_name date time ps user_name
        user_phone draw codeNum now
      (.ok r.1, r.2)

/-! ## Conversation Orchestrator (src/agent.py)

`FoodieSpotAgent._execute_tool` dispatches by name through `TOOL_MAP`
and converts any exception raised by the tool into a fixed error
dictionary.  The registry is modelled as a name-indexed partial map to
functions that either return a result or raise (`Except`), with the
argument and payload types abstract: the dispatch logic does not inspect
them. -/

/-- `FoodieSpotAgent._execute_tool` (lines 100-132).  `ε` is the type of
raised exception values, `α` the tool argument mapping, `β` a tool
result dictionary. -/
def execute_tool {ε α β : Type} (registry : Str → Option (α → Except ε β))
    (name : Str) (args : α) : ToolResult β :=
  match registry name with
  | none => .err (str "Tool " ++ quo ++ name ++ quo ++ str " not found.")
  | some f =>
    match f args with
    | .ok r => .ok r
    | .error _ =>
      .err (str "An error occurred while trying to execute the " ++ name
        ++ str " action.")

/-! ### FoodieSpotAgent.process_message (lines 134-270)

The LLM boundary is an oracle: the first `send_message` and the
follow-up `send_message` each either raise (transport failure) or
return a response; a response is `none` when it has no candidates or no
content, else the list of its parts.  Tool dispatch goes through a
registry as in `execute_tool`; the serialization of the tool result and
the history mutation only feed the model text, which no claim inspects,
and `json.dumps` failures (TypeError) are caught inline at lines
209-213, so they are not modelled as a failure source. -/

/-- One part of a model response: an optional function call and an
optional text segment. -/
structure Part where
  function_call : Option (Str × List (Str × Str))
  text : Option Str
deriving DecidableEq, Repr

/-- The oracle for one turn: the two model round-trips and the tool
registry (tool arguments are name-value string pairs, tool payloads are
serialized dictionaries). -/
structure AgentEnv where
  send1 : Except Str (Option (List Part))
  followUp : Except Str (Option (List Part))
  registry : Str → Option (List (Str × Str) → Except Str Str)

/-- The part scan of lines 160-173: the first function call with a
nonempty name wins and clears accumulated text; otherwise nonempty text
parts accumulate. -/
def scanParts (acc : Str) : List Part → Option (Str × List (Str × Str)) × Str
  | [] => (none, acc)
  | p :: ps =>
    match p.function_call with
    | some fc =>
      if !fc.1.isEmpty then (some fc, [])
      else
        match p.text with
        | some t => if !t.isEmpty then scanParts (acc ++ t) ps else scanParts acc ps
        | none => scanParts acc ps
    | none =>
      match p.text with
      | some t => if !t.isEmpty then scanParts (acc ++ t) ps else scanParts acc ps
      | none => scanParts acc ps

/-- Text extraction from the follow-up response (lines 239-252). -/
def followText : Option (List Part) → Str
  | none => str "OK. What next?"
  | some ps =>
    ps.foldl (fun acc p =>
      match p.text with
      | some t => if !t.isEmpty then acc ++ t else acc
      | none => acc) []

/-- The final check of lines 261-263: empty or refusing text is replaced
by the generic apology. -/
def postText (t : Str) : Str :=
  if t.isEmpty || subStr (str "cannot fulfill this request") (lowerStr t) then
    str "I" ++ quo ++ str "m sorry, I couldn" ++ quo
      ++ str "t quite process that. Could you please try rephrasing your request?"
  else t

/-- One audit-log entry (line 203-206). -/
structure LogEntry where
  tool_name : Str
  args : List (Str × Str)
  result : ToolResult Str
deriving DecidableEq, Repr

/-- The generic failure message of line 269. -/
def techMsg : Str :=
  str "I seem to be having some technical difficulties at the moment. "
    ++ str "Please try again in a little bit!"

/-- The body of the `try` block of `process_message`: a raise anywhere
propagates as `.error` (the re-raise of line 237 included). -/
def process_message_core (env : AgentEnv) :
    Except Str (Str × List LogEntry) :=
  match env.send1 with
  | .error e => .error e
  | .ok resp =>
    let scanned := scanParts [] (resp.getD [])
    match scanned.1 with
    | none => .ok (postText scanned.2, [])
    | some fc =>
      let result := execute_tool env.registry fc.1 fc.2
      let logs := [{ tool_name := fc.1, args := fc.2, result := result : LogEntry }]
      match env.followUp with
      | .error e => .error e
      | .ok fresp => .ok (postText (followText fresp), logs)

/-- `FoodieSpotAgent.process_message` (lines 134-270): the top-level
`except` replaces any uncaught failure by the generic message and an
empty audit log. -/
def process_message (env : AgentEnv) : Str × List LogEntry :=
  match process_message_core env with
  | .ok r => r
  | .error _ => (techMsg, [])

/-! ## Booking sequences (for the confirmation-code claims) -/

/-- One `make_reservation` call with its environment inputs: the
availability draw, the `randint` value, and the clock reading. -/
structure BookCall where
  restaurant_name : Str
  date : Str
  time : Str
  party_size : Int
  user_name : Str
  user_phone : Str
  draw : Bool
  codeNum : Nat
  now : Str
deriving DecidableEq, Repr

/-- Run a sequence of `make_reservation` calls against one
`DataManager`, threading its state. -/
def runBookings (st : DMState) : List BookCall → List BookResult × DMState
  | [] => ([], st)
  | c :: cs =>
    let r := make_reservation st c.restaurant_name c.date c.time c.party_size
      c.user_name c.user_phone c.draw c.codeNum c.now
    let rest := runBookings r.2 cs
    (r.1 :: rest.1, rest.2)

/-- The confirmation codes issued by the successful bookings of a run,
in order. -/
def issuedCodes (results : List BookResult) : List Str :=
  results.filterMap (fun r => if r.success then r.confirmation_code else none)

/-! ## Specification-side definitions

These two definitions follow the words of the specification claims (not
the source); the corresponding theorems compare them with the source
embeddings above. -/

/-- The first element attaining the minimal key: "the one whose name
length is closest to the query length (ties broken by original catalog
order)". -/
def firstMinBy (key : Restaurant → Nat) : List Restaurant → Option Restaurant
  | [] => none
  | x :: xs => some (xs.foldl (fun b r => if key r < key b then r else b) x)

/-- Claim C3 as written: first exact case-insensitive match if any;
otherwise among case-insensitive substring matches `none`, the unique
one, or the first closest-length one. -/
def find_by_name_spec (rs : List Restaurant) (name : Str) :
    Option Restaurant :=
  match rs.find? (fun r => lowerStr r.name == lowerStr name) with
  | some r => some r
  | none =>
    firstMinBy (lenKey name)
      (rs.filter (fun r => subStr (lowerStr name) (lowerStr r.name)))

/-- Claim C5, cuisine condition: exact-or-substring case-insensitive
match against the cuisine field (vacuous when absent or empty). -/
def cuisineOK (c : Option Str) (r : Restaurant) : Bool :=
  match c with
  | some s =>
    if s.isEmpty then true
    else lowerStr r.cuisine == lowerStr s || subStr (lowerStr s) (lowerStr r.cuisine)
  | none => true

/-- Claim C5, location condition: case-insensitive substring of the
location or the address (vacuous when absent or empty). -/
def locationOK (c : Option Str) (r : Restaurant) : Bool :=
  match c with
  | some s =>
    if s.isEmpty then true
    else lowerStr r.location == lowerStr s || subStr (lowerStr s) (lowerStr r.location)
      || subStr (lowerStr s) (lowerStr r.address)
  | none => true

/-- Claim C5, party-size condition: seating capacity at least the party
size, silently vacuous for a non-numeric (or falsy) party size. -/
def partySizeOK (c : Option PyNum) (r : Restaurant) : Bool :=
  match c with
  | some v =>
    if numTruthy v then
      match pyInt v with
      | some n => r.seating_capacity ≥ n
      | none => true
    else true
  | none => true

/-- Claim C5, text condition: case-insensitive substring of the name,
the description, or any tag (vacuous when absent or empty). -/
def textOK (c : Option Str) (r : Restaurant) : Bool :=
  match c with
  | some s =>
    if s.isEmpty then true
    else subStr (lowerStr s) (lowerStr r.name)
      || subStr (lowerStr s) (lowerStr r.description)
      || r.tags.any (fun tag => subStr (lowerStr s) (lowerStr tag))
  | none => true

/-- Claim C5 as written: the conjunction of the four per-field
conditions, each vacuous when its field is absent or Python-falsy. -/
def matchesCriteria (cr : Criteria) (r : Restaurant) : Bool :=
  cuisineOK cr.cuisine r && locationOK cr.location r &&
    partySizeOK cr.party_size r && textOK cr.text r

/-! ## Helper lemmas -/

theorem assocGet_map_set (k : Str) (v : Reservation) :
    ∀ l : List (Str × Reservation), (assocGet l k).isSome = true →
    assocGet (l.map (fun p => if p.1 = k then (k, v) else p)) k = some v := by
  intro l
  induction l with
  | nil => intro h; simp [assocGet] at h
  | cons p t ih =>
    intro h
    by_cases hp : p.1 = k
    · simp [assocGet, hp]
    · simp only [List.map_cons, if_neg hp]
      simp only [assocGet, if_neg hp] at h ⊢
      exact ih h

theorem assocGet_append_right (k : Str) (v : Reservation) :
    ∀ l : List (Str × Reservation), assocGet l k = none →
    assocGet (l ++ [(k, v)]) k = some v := by
  intro l
  induction l with
  | nil => intro _; simp [assocGet]
  | cons p t ih =>
    intro h
    by_cases hp : p.1 = k
    · simp [assocGet, hp] at h
    · simp only [assocGet, if_neg hp] at h
      simp only [List.cons_append]
      simp only [assocGet, if_neg hp]
      exact ih h

theorem assocGet_insert (l : List (Str × Reservation)) (k : Str) (v : Reservation) :
    assocGet (dictInsert l k v) k = some v := by
  unfold dictInsert
  split
  · exact assocGet_map_set k v l (by assumption)
  · rename_i h
    exact assocGet_append_right k v l (Option.not_isSome_iff_eq_none.mp h)

theorem mem_dictInsert (l : List (Str × Reservation)) (k : Str) (v : Reservation) :
    ∀ p ∈ dictInsert l k v, p ∈ l ∨ p = (k, v) := by
  unfold dictInsert
  split
  · intro p hp
    rw [List.mem_map] at hp
    obtain ⟨q, hq, hEq⟩ := hp
    by_cases h : q.1 = k
    · right; rw [← hEq]; simp [h]
    · left; rw [← hEq]; simp only [if_neg h]; exact hq
  · intro p hp
    rw [List.mem_append] at hp
    rcases hp with h | h
    · left; exact h
    · right; simpa using h

/-- If the internal availability check succeeds, a restaurant was
resolved and the party size fits its capacity (the capacity test of
data_manager.py line 152 was passed on the way to the draw). -/
theorem avail_true_capacity (rs : List Restaurant) (name date time : Str)
    (ps : Int) (draw : Bool)
    (h : (check_availability rs name date time ps draw).available = true) :
    ∃ r, find_restaurant_by_name rs name = some r ∧ ps ≤ r.seating_capacity := by
  unfold check_availability at h
  split at h
  · exact absurd h (by simp)
  rename_i r hf
  split at h
  · exact absurd h (by simp [invalidResult])
  rename_i dt hd
  split at h
  · exact absurd h (by simp [invalidResult])
  rename_i t ht
  split at h
  · exact absurd h (by simp)
  rename_i hc
  exact ⟨r, hf, by omega⟩

/-- Core case analysis of `make_reservation`: the result and state in
terms of the internal availability check. -/
theorem make_reservation_cases (st : DMState) (name date time : Str)
    (ps : Int) (user phone : Str) (draw : Bool) (codeNum : Nat) (now : Str) :
    (make_reservation st name date time ps user phone draw codeNum now).1.success
      = (check_availability st.restaurants name date time ps draw).available ∧
    ((check_availability st.restaurants name date time ps draw).available = false →
      make_reservation st name date time ps user phone draw codeNum now =
        ({ success := false
           message := (check_availability st.restaurants name date time ps draw).message
           restaurant := name }, st)) ∧
    ((check_availability st.restaurants name date time ps draw).available = true →
      (make_reservation st name date time ps user phone draw codeNum now).1.confirmation_code
          = some (codeOf codeNum) ∧
      (make_reservation st name date time ps user phone draw codeNum now).1.party_size = some ps ∧
      (make_reservation st name date time ps user phone draw codeNum now).1.restaurant = name ∧
      (make_reservation st name date time ps user phone draw codeNum now).2.reservations =
        dictInsert st.reservations (codeOf codeNum)
          { confirmation_code := codeOf codeNum
            restaurant_name := name
            date := date
            time := time
            party_size := ps
            user_name := user
            user_phone := phone
            created_at := now }) := by
  unfold make_reservation
  cases h : (check_availability st.restaurants name date time ps draw).available <;>
    simp [h]

/-! ## Demonstration data for the concrete witnesses -/

/-- A demo restaurant: closed Tuesdays, lowercase "closed" marker on
Wednesdays, open 09:00 to 22:00 on Mondays. -/
def demoPasta : Restaurant :=
  { name := str "Pasta Paradise"
    cuisine := str "Italian"
    location := str "Downtown"
    address := str "12 Olive Street, Downtown"
    seating_capacity := 10
    opening_hours :=
      [(str "monday", str "09:00-22:00"),
       (str "tuesday", str "Closed"),
       (str "wednesday", str "closed")]
    description := str "Fresh pasta in a cozy room"
    tags := [str "romantic", str "pasta"] }

/-- A second demo restaurant with no opening-hours entries at all. -/
def demoGrill : Restaurant :=
  { name := str "Paradise Grill"
    cuisine := str "American"
    location := str "Midtown"
    address := str "99 Grand Avenue, Midtown"
    seating_capacity := 40
    opening_hours := []
    description := str "Charcoal grill and craft sides"
    tags := [str "grill"] }

/-- A demo Catalog Store state with an empty reservation map. -/
def demoState : DMState := ⟨[demoPasta, demoGrill], []⟩

/-! ## Claim C7 -/

/-- C7: for every requested tool call, `_execute_tool` returns the fixed
"Tool not found" error result without invoking anything when the name is
not registered, and converts any exception raised by a registered tool
into the fixed "An error occurred" result; the exception value `e` never
reaches the result (the conclusion does not depend on `e`). -/
theorem C7_execute_tool_guard {ε α β : Type}
    (registry : Str → Option (α → Except ε β)) (name : Str) (args : α) :
    (registry name = none →
      execute_tool registry name args =
        .err (str "Tool " ++ quo ++ name ++ quo ++ str " not found.")) ∧
    (∀ f e, registry name = some f → f args = .error e →
      execute_tool registry name args =
        .err (str "An error occurred while trying to execute the " ++ name
          ++ str " action.")) := by
  constructor
  · intro h
    unfold execute_tool
    simp only [h]
  · intro f e hf he
    unfold execute_tool
    simp only [hf, he]

/-- A demo registry with a single registered tool that raises. -/
def demoRegistry : Str → Option (Nat → Except Str Nat) :=
  fun n => if n = str "boom" then some (fun _ => .error (str "secret detail")) else none

theorem C7_witness :
    execute_tool demoRegistry (str "ghost") 0 =
      .err (str "Tool " ++ quo ++ str "ghost" ++ quo ++ str " not found.") ∧
    execute_tool demoRegistry (str "boom") 0 =
      .err (str "An error occurred while trying to execute the " ++ str "boom"
        ++ str " action.") :=
  ⟨(C7_execute_tool_guard demoRegistry (str "ghost") 0).1 (by rfl),
   (C7_execute_tool_guard demoRegistry (str "boom") 0).2 _ (str "secret detail")
     (by rfl) (by rfl)⟩

/-! ## Claim C9 -/

/-- C9: every successful `make_reservation` echoes the caller-supplied
restaurant name verbatim in the result and stores it verbatim in the
reservation record, rather than the canonical name of the record the
internal availability check resolved (the witness books under the
partial lowercase name "paradise grill" while the catalog record is
"Paradise Grill"). -/
theorem C9_booking_records_input_name (st : DMState) (name date time : Str)
    (ps : Int) (user phone : Str) (draw : Bool) (codeNum : Nat) (now : Str)
    (h : (make_reservation st name date time ps user phone draw codeNum now).1.success = true) :
    (make_reservation st name date time ps user phone draw codeNum now).1.restaurant = name ∧
    ∃ rec, assocGet
        (make_reservation st name date time ps user phone draw codeNum now).2.reservations
        (codeOf codeNum) = some rec ∧
      rec.restaurant_name = name := by
  have hm := make_reservation_cases st name date time ps user phone draw codeNum now
  have hav : (check_availability st.restaurants name date time ps draw).available = true := by
    rw [← hm.1]; exact h
  obtain ⟨_, _, hrn, hres⟩ := hm.2.2 hav
  refine ⟨hrn, ?_⟩
  rw [hres]
  exact ⟨_, assocGet_insert _ _ _, rfl⟩

theorem C9_witness :
    (make_reservation demoState (str "paradise grill") (str "2026-10-12")
      (str "19:00") 2 (str "Ann Lee") (str "555-0100") true 12345
      (str "2026-10-12T09:00:00")).1.restaurant = str "paradise grill" ∧
    ∃ rec, assocGet
        (make_reservation demoState (str "paradise grill") (str "2026-10-12")
          (str "19:00") 2 (str "Ann Lee") (str "555-0100") true 12345
          (str "2026-10-12T09:00:00")).2.reservations
        (codeOf 12345) = some rec ∧
      rec.restaurant_name = str "paradise grill" :=
  C9_booking_records_input_name demoState (str "paradise grill")
    (str "2026-10-12") (str "19:00") 2 (str "Ann Lee") (str "555-0100") true
    12345 (str "2026-10-12T09:00:00") (by rfl)

/-! ## Claim C2 -/

/-- C2: `make_reservation` succeeds exactly when its internal re-run of
`check_availability` on the same arguments is available; on failure it
carries the availability message unchanged and leaves the state
untouched (no reservation stored); on success the echoed and stored
party size equals the request and does not exceed the seating capacity
of the restaurant the check resolved. -/
theorem C2_book_follows_check (st : DMState) (name date time : Str) (ps : Int)
    (user phone : Str) (draw : Bool) (codeNum : Nat) (now : Str) :
    ((make_reservation st name date time ps user phone draw codeNum now).1.success
      = (check_availability st.restaurants name date time ps draw).available) ∧
    ((check_availability st.restaurants name date time ps draw).available = false →
      (make_reservation st name date time ps user phone draw codeNum now).1.message
        = (check_availability st.restaurants name date time ps draw).message ∧
      (make_reservation st name date time ps user phone draw codeNum now).2 = st) ∧
    ((make_reservation st name date time ps user phone draw codeNum now).1.success = true →
      ∃ r, find_restaurant_by_name st.restaurants name = some r ∧
        ps ≤ r.seating_capacity ∧
        (make_reservation st name date time ps user phone draw codeNum now).1.party_size
          = some ps ∧
        ∃ rec, assocGet
            (make_reservation st name date time ps user phone draw codeNum now).2.reservations
            (codeOf codeNum) = some rec ∧
          rec.party_size = ps) := by
  have hm := make_reservation_cases st name date time ps user phone draw codeNum now
  refine ⟨hm.1, ?_, ?_⟩
  · intro hav
    rw [hm.2.1 hav]
    exact ⟨rfl, rfl⟩
  · intro hs
    have hav : (check_availability st.restaurants name date time ps draw).available = true := by
      rw [← hm.1]; exact hs
    obtain ⟨r, hf, hcap⟩ := avail_true_capacity _ _ _ _ _ _ hav
    obtain ⟨_, hps, _, hres⟩ := hm.2.2 hav
    refine ⟨r, hf, hcap, hps, ?_⟩
    rw [hres]
    exact ⟨_, assocGet_insert _ _ _, rfl⟩

theorem C2_witness :
    ((make_reservation demoState (str "Pasta Paradise") (str "2026-10-12")
        (str "19:00") 4 (str "Ann Lee") (str "555-0100") false 23456
        (str "2026-10-12T09:00:00")).1.message
      = (check_availability demoState.restaurants (str "Pasta Paradise")
          (str "2026-10-12") (str "19:00") 4 false).message ∧
     (make_reservation demoState (str "Pasta Paradise") (str "2026-10-12")
        (str "19:00") 4 (str "Ann Lee") (str "555-0100") false 23456
        (str "2026-10-12T09:00:00")).2 = demoState) ∧
    ∃ r, find_restaurant_by_name demoState.restaurants (str "Pasta Paradise") = some r ∧
      (4 : Int) ≤ r.seating_capacity ∧
      (make_reservation demoState (str "Pasta Paradise") (str "2026-10-12")
        (str "19:00") 4 (str "Ann Lee") (str "555-0100") true 23456
        (str "2026-10-12T09:00:00")).1.party_size = some 4 ∧
      ∃ rec, assocGet
          (make_reservation demoState (str "Pasta Paradise") (str "2026-10-12")
            (str "19:00") 4 (str "Ann Lee") (str "555-0100") true 23456
            (str "2026-10-12T09:00:00")).2.reservations
          (codeOf 23456) = some rec ∧
        rec.party_size = 4 :=
  ⟨(C2_book_follows_check demoState (str "Pasta Paradise") (str "2026-10-12")
      (str "19:00") 4 (str "Ann Lee") (str "555-0100") false 23456
      (str "2026-10-12T09:00:00")).2.1 (by rfl),
   (C2_book_follows_check demoState (str "Pasta Paradise") (str "2026-10-12")
      (str "19:00") 4 (str "Ann Lee") (str "555-0100") true 23456
      (str "2026-10-12T09:00:00")).2.2 (by rfl)⟩

/-! ## Claim C4 -/

/-- C4: once the restaurant resolves, date and time parse, and the
capacity test passes, a "Closed" entry for the weekday of the requested
date forces the Closed failure for every value of the random draw, and a
parseable interval entry with the requested time outside it forces the
OutOfHours failure for every value of the draw: both checks precede the
random availability decision. -/
theorem C4_closed_and_hours_short_circuit (rs : List Restaurant)
    (name date time : Str) (ps : Int) (r : Restaurant) (dt : Date) (t : Nat)
    (hf : find_restaurant_by_name rs name = some r)
    (hd : parseDate date = some dt)
    (ht : parseTime time = some t)
    (hcap : ¬ ps > r.seating_capacity) :
    (assocGet r.opening_hours (dayName dt) = some (str "Closed") →
      ∀ draw, check_availability rs name date time ps draw =
        { available := false
          message := r.name ++ str " is closed on " ++ capStr (dayName dt) ++ str "."
          restaurant := some r.name }) ∧
    (∀ hours openStr closeStr openT closeT,
      assocGet r.opening_hours (dayName dt) = some hours →
      hours ≠ str "Closed" →
      subStr (str "-") hours = true →
      splitOnCh '-' hours = [openStr, closeStr] →
      parseTime openStr = some openT →
      parseTime closeStr = some closeT →
      t < openT ∨ t > closeT →
      ∀ draw, check_availability rs name date time ps draw =
        { available := false
          message := r.name ++ str " is only open from " ++ openStr ++ str " to "
            ++ closeStr ++ str " on " ++ capStr (dayName dt) ++ str "."
          restaurant := some r.name
          opening_hours := some hours }) := by
  constructor
  · intro hcl draw
    simp only [check_availability, hf, hd, ht, if_neg hcap, hcl]
    simp
  · intro hours openStr closeStr openT closeT hE hne hsub hsplit ho hc hout draw
    simp only [check_availability, hf, hd, ht, if_neg hcap, hE]
    have hbeq : (some hours == some (str "Closed")) = false := by
      simp [hne]
    rw [hbeq]
    simp only [Bool.false_eq_true, if_false, Option.getD_some, hsub, if_true,
      hsplit, ho, hc]
    have hcond : (decide (t < openT) || decide (t > closeT)) = true := by
      rcases hout with h | h <;> simp [h]
    rw [hcond]
    simp

theorem C4_witness :
    check_availability demoState.restaurants (str "Pasta Paradise")
        (str "2026-10-13") (str "19:00") 4 true =
      { available := false
        message := str "Pasta Paradise" ++ str " is closed on "
          ++ capStr (dayName ⟨2026, 10, 13⟩) ++ str "."
        restaurant := some (str "Pasta Paradise") } ∧
    check_availability demoState.restaurants (str "Pasta Paradise")
        (str "2026-10-12") (str "23:30") 4 true =
      { available := false
        message := str "Pasta Paradise" ++ str " is only open from "
          ++ str "09:00" ++ str " to " ++ str "22:00" ++ str " on "
          ++ capStr (dayName ⟨2026, 10, 12⟩) ++ str "."
        restaurant := some (str "Pasta Paradise")
        opening_hours := some (str "09:00-22:00") } :=
  ⟨(C4_closed_and_hours_short_circuit demoState.restaurants
      (str "Pasta Paradise") (str "2026-10-13") (str "19:00") 4 demoPasta
      ⟨2026, 10, 13⟩ (19 * 60) (by rfl) (by rfl) (by rfl) (by decide)).1
      (by rfl) true,
   (C4_closed_and_hours_short_circuit demoState.restaurants
      (str "Pasta Paradise") (str "2026-10-12") (str "23:30") 4 demoPasta
      ⟨2026, 10, 12⟩ (23 * 60 + 30) (by rfl) (by rfl) (by rfl) (by decide)).2
      (str "09:00-22:00") (str "09:00") (str "22:00") (9 * 60) (22 * 60)
      (by rfl) (by decide) (by rfl) (by rfl) (by rfl) (by rfl)
      (by right; decide) true⟩

/-! ## Claim C10 -/

/-- C10: when the opening-hours mapping has no entry for the requested
weekday, or has an entry that is neither the exact case-sensitive string
"Closed" nor a string containing a hyphen, both the closed-day check and
the interval check are skipped and the call lands on the random draw:
the restaurant is treated as open at every parseable time that day. -/
theorem C10_unrecognized_hours_treated_open (rs : List Restaurant)
    (name date time : Str) (ps : Int) (r : Restaurant) (dt : Date) (t : Nat)
    (hf : find_restaurant_by_name rs name = some r)
    (hd : parseDate date = some dt)
    (ht : parseTime time = some t)
    (hcap : ¬ ps > r.seating_capacity)
    (hE : assocGet r.opening_hours (dayName dt) = none ∨
      ∃ e, assocGet r.opening_hours (dayName dt) = some e ∧
        e ≠ str "Closed" ∧ subStr (str "-") e = false) :
    ∀ draw, check_availability rs name date time ps draw =
      drawResult r date time ps draw := by
  intro draw
  rcases hE with hnone | ⟨e, hsome, hne, hnohyph⟩
  · simp only [check_availability, hf, hd, ht, if_neg hcap, hnone]
    have hnh : subStr (str "-") ([] : Str) = false := by decide
    simp [hnh]
  · simp only [check_availability, hf, hd, ht, if_neg hcap, hsome]
    have hbeq : (some e == some (str "Closed")) = false := by simp [hne]
    rw [hbeq]
    simp [hnohyph]

theorem C10_witness :
    check_availability demoState.restaurants (str "Paradise Grill")
        (str "2026-10-13") (str "03:00") 4 true =
      drawResult demoGrill (str "2026-10-13") (str "03:00") 4 true ∧
    check_availability demoState.restaurants (str "Pasta Paradise")
        (str "2026-10-14") (str "03:00") 4 false =
      drawResult demoPasta (str "2026-10-14") (str "03:00") 4 false :=
  ⟨C10_unrecognized_hours_treated_open demoState.restaurants
      (str "Paradise Grill") (str "2026-10-13") (str "03:00") 4 demoGrill
      ⟨2026, 10, 13⟩ (3 * 60) (by rfl) (by rfl) (by rfl) (by decide)
      (Or.inl (by rfl)) true,
   C10_unrecognized_hours_treated_open demoState.restaurants
      (str "Pasta Paradise") (str "2026-10-14") (str "03:00") 4 demoPasta
      ⟨2026, 10, 14⟩ (3 * 60) (by rfl) (by rfl) (by rfl) (by decide)
      (Or.inr ⟨str "closed", by rfl, by decide, by rfl⟩) false⟩

/-! ## Claim C8 -/

/-- C8: whenever an uncaught exception escapes the per-turn processing
(the first model send fails, or the follow-up send after a tool call
fails), `process_message` returns the generic technical-difficulties
message paired with an empty audit log; in the follow-up case the audit
entry recorded for the executed tool call inside the turn is discarded. -/
theorem C8_turn_failure_generic (env : AgentEnv) :
    (∀ e, env.send1 = .error e → process_message env = (techMsg, [])) ∧
    (∀ e parts fc, env.send1 = .ok parts →
      (scanParts [] (parts.getD [])).1 = some fc →
      env.followUp = .error e →
      process_message env = (techMsg, [])) := by
  constructor
  · intro e h
    unfold process_message process_message_core
    simp only [h]
  · intro e parts fc h1 h2 h3
    unfold process_message process_message_core
    simp only [h1, h2, h3]

/-- A demo turn whose first model round-trip fails outright. -/
def demoEnvSendFail : AgentEnv :=
  { send1 := .error (str "transport down")
    followUp := .ok none
    registry := fun _ => none }

/-- A demo turn in which the model requests a tool call and the
follow-up round-trip then fails. -/
def demoEnvFollowFail : AgentEnv :=
  { send1 := .ok (some [⟨some (str "check_availability", []), none⟩])
    followUp := .error (str "transport down")
    registry := fun _ => none }

theorem C8_witness :
    process_message demoEnvSendFail = (techMsg, []) ∧
    process_message demoEnvFollowFail = (techMsg, []) :=
  ⟨(C8_turn_failure_generic demoEnvSendFail).1 (str "transport down") (by rfl),
   (C8_turn_failure_generic demoEnvFollowFail).2 (str "transport down")
     (some [⟨some (str "check_availability", []), none⟩])
     (str "check_availability", []) (by rfl) (by rfl) (by rfl)⟩

/-! ## Claim C6 -/

/-- C6: the Tool Layer returns an error result, without delegating to
the Catalog Store, exactly when the party size does not denote a
positive integer under the `int()` coercion, the date does not split
into exactly three hyphen-separated components, or the time does not
split into exactly two colon-separated components, with
`make_reservation` additionally requiring nonempty user name and phone;
otherwise each delegates with the coerced party size.  (The embedded
functions are total, so no exception crosses the tool boundary.) -/
theorem C6_tool_layer_validation (st : DMState) (name date time : Str)
    (psArg : PyNum) (user phone : Str) (draw : Bool) (codeNum : Nat) (now : Str) :
    ((∃ msg, tools_check_availability st name date time psArg draw = .err msg) ↔
      ((pyInt psArg = none ∨ ∃ n, pyInt psArg = some n ∧ n ≤ 0) ∨
        (splitOnCh '-' date).length ≠ 3 ∨ (splitOnCh ':' time).length ≠ 2)) ∧
    (∀ n : Int, pyInt psArg = some n → 0 < n →
      (splitOnCh '-' date).length = 3 → (splitOnCh ':' time).length = 2 →
      tools_check_availability st name date time psArg draw =
        .ok (check_availability st.restaurants name date time n draw)) ∧
    ((∃ msg,
        (tools_make_reservation st name date time psArg user phone draw codeNum now).1
          = .err msg ∧
        (tools_make_reservation st name date time psArg user phone draw codeNum now).2
          = st) ↔
      ((pyInt psArg = none ∨ ∃ n, pyInt psArg = some n ∧ n ≤ 0) ∨
        user = [] ∨ phone = [] ∨
        (splitOnCh '-' date).length ≠ 3 ∨ (splitOnCh ':' time).length ≠ 2)) ∧
    (∀ n : Int, pyInt psArg = some n → 0 < n → user ≠ [] → phone ≠ [] →
      (splitOnCh '-' date).length = 3 → (splitOnCh ':' time).length = 2 →
      tools_make_reservation st name date time psArg user phone draw codeNum now =
        (.ok (make_reservation st name date time n user phone draw codeNum now).1,
         (make_reservation st name date time n user phone draw codeNum now).2)) := by
  have hdE : date.isEmpty = true → (splitOnCh '-' date).length = 1 := by
    intro h; rw [List.isEmpty_iff] at h; rw [h]; rfl
  have htE : time.isEmpty = true → (splitOnCh ':' time).length = 1 := by
    intro h; rw [List.isEmpty_iff] at h; rw [h]; rfl
  refine ⟨?_, ?_, ?_, ?_⟩
  · unfold tools_check_availability
    split
    · rename_i hp
      exact iff_of_true ⟨_, rfl⟩ (Or.inl (Or.inl hp))
    · rename_i n hp
      split_ifs with h1 h2 h3
      · exact iff_of_true ⟨_, rfl⟩ (Or.inl (Or.inr ⟨n, hp, h1⟩))
      · refine iff_of_true ⟨_, rfl⟩ (Or.inr (Or.inl ?_))
        simp only [Bool.or_eq_true, decide_eq_true_eq] at h2
        rcases h2 with h | h
        · rw [hdE h]; omega
        · exact h
      · refine iff_of_true ⟨_, rfl⟩ (Or.inr (Or.inr ?_))
        simp only [Bool.or_eq_true, decide_eq_true_eq] at h3
        rcases h3 with h | h
        · rw [htE h]; omega
        · exact h
      · refine iff_of_false (by rintro ⟨msg, hmsg⟩; cases hmsg) ?_
        simp only [Bool.or_eq_true, decide_eq_true_eq, not_or] at h2 h3
        rintro ((h | ⟨m, hm, hm0⟩) | h | h)
        · rw [hp] at h; cases h
        · rw [hp] at hm; cases hm; omega
        · exact absurd h h2.2
        · exact absurd h h3.2
  · intro n hp hn hd ht
    unfold tools_check_availability
    split
    · rename_i hp'
      rw [hp] at hp'; cases hp'
    · rename_i m hp'
      rw [hp] at hp'
      injection hp' with hnm
      subst hnm
      split_ifs with h1 h2 h3
      · omega
      · simp only [Bool.or_eq_true, decide_eq_true_eq] at h2
        rcases h2 with h | h
        · rw [hdE h] at hd; omega
        · exact absurd hd h
      · simp only [Bool.or_eq_true, decide_eq_true_eq] at h3
        rcases h3 with h | h
        · rw [htE h] at ht; omega
        · exact absurd ht h
      · rfl
  · unfold tools_make_reservation
    split
    · rename_i hp
      exact iff_of_true ⟨_, rfl, rfl⟩ (Or.inl (Or.inl hp))
    · rename_i n hp
      split_ifs with h1 h2 h3 h4 h5
      · exact iff_of_true ⟨_, rfl, rfl⟩ (Or.inl (Or.inr ⟨n, hp, h1⟩))
      · exact iff_of_true ⟨_, rfl, rfl⟩
          (Or.inr (Or.inl (List.isEmpty_iff.mp h2)))
      · exact iff_of_true ⟨_, rfl, rfl⟩
          (Or.inr (Or.inr (Or.inl (List.isEmpty_iff.mp h3))))
      · refine iff_of_true ⟨_, rfl, rfl⟩ (Or.inr (Or.inr (Or.inr (Or.inl ?_))))
        simp only [Bool.or_eq_true, decide_eq_true_eq] at h4
        rcases h4 with h | h
        · rw [hdE h]; omega
        · exact h
      · refine iff_of_true ⟨_, rfl, rfl⟩ (Or.inr (Or.inr (Or.inr (Or.inr ?_))))
        simp only [Bool.or_eq_true, decide_eq_true_eq] at h5
        rcases h5 with h | h
        · rw [htE h]; omega
        · exact h
      · refine iff_of_false (by rintro ⟨msg, hmsg, _⟩; cases hmsg) ?_
        simp only [Bool.or_eq_true, decide_eq_true_eq, not_or] at h4 h5
        rintro ((h | ⟨m, hm, hm0⟩) | h | h | h | h)
        · rw [hp] at h; cases h
        · rw [hp] at hm; cases hm; omega
        · exact absurd (List.isEmpty_iff.mpr h) h2
        · exact absurd (List.isEmpty_iff.mpr h) h3
        · exact absurd h h4.2
        · exact absurd h h5.2
  · intro n hp hn hu hph hd ht
    unfold tools_make_reservation
    split
    · rename_i hp'
      rw [hp] at hp'; cases hp'
    · rename_i m hp'
      rw [hp] at hp'
      injection hp' with hnm
      subst hnm
      split_ifs with h1 h2 h3 h4 h5
      · omega
      · exact absurd (List.isEmpty_iff.mp h2) hu
      · exact absurd (List.isEmpty_iff.mp h3) hph
      · simp only [Bool.or_eq_true, decide_eq_true_eq] at h4
        rcases h4 with h | h
        · rw [hdE h] at hd; omega
        · exact absurd hd h
      · simp only [Bool.or_eq_true, decide_eq_true_eq] at h5
        rcases h5 with h | h
        · rw [htE h] at ht; omega
        · exact absurd ht h
      · rfl

theorem C6_witness :
    ((∃ msg, tools_check_availability demoState (str "Pasta Paradise")
        (str "2026-10-12") (str "19:00") (PyNum.ofStr (str "zero")) true
        = .err msg) ∧
     tools_check_availability demoState (str "Pasta Paradise")
        (str "2026-10-12") (str "19:00") (PyNum.ofInt 4) true
        = .ok (check_availability demoState.restaurants (str "Pasta Paradise")
            (str "2026-10-12") (str "19:00") 4 true)) ∧
    ((∃ msg,
        (tools_make_reservation demoState (str "Pasta Paradise")
          (str "2026-10-12") (str "19:00") (PyNum.ofInt 4) [] (str "555-0100")
          true 23456 (str "T0")).1 = .err msg ∧
        (tools_make_reservation demoState (str "Pasta Paradise")
          (str "2026-10-12") (str "19:00") (PyNum.ofInt 4) [] (str "555-0100")
          true 23456 (str "T0")).2 = demoState) ∧
     tools_make_reservation demoState (str "Pasta Paradise")
        (str "2026-10-12") (str "19:00") (PyNum.ofInt 4) (str "Ann Lee")
        (str "555-0100") true 23456 (str "T0") =
       (.ok (make_reservation demoState (str "Pasta Paradise")
          (str "2026-10-12") (str "19:00") 4 (str "Ann Lee") (str "555-0100")
          true 23456 (str "T0")).1,
        (make_reservation demoState (str "Pasta Paradise")
          (str "2026-10-12") (str "19:00") 4 (str "Ann Lee") (str "555-0100")
          true 23456 (str "T0")).2)) :=
  ⟨⟨(C6_tool_layer_validation demoState (str "Pasta Paradise")
      (str "2026-10-12") (str "19:00") (PyNum.ofStr (str "zero")) []
      (str "555-0100") true 23456 (str "T0")).1.mpr
      (Or.inl (Or.inl (by rfl))),
    (C6_tool_layer_validation demoState (str "Pasta Paradise")
      (str "2026-10-12") (str "19:00") (PyNum.ofInt 4) [] (str "555-0100")
      true 23456 (str "T0")).2.1 4 (by rfl) (by decide) (by rfl) (by rfl)⟩,
   ⟨(C6_tool_layer_validation demoState (str "Pasta Paradise")
      (str "2026-10-12") (str "19:00") (PyNum.ofInt 4) [] (str "555-0100")
      true 23456 (str "T0")).2.2.1.mpr (Or.inr (Or.inl rfl)),
    (C6_tool_layer_validation demoState (str "Pasta Paradise")
      (str "2026-10-12") (str "19:00") (PyNum.ofInt 4) (str "Ann Lee")
      (str "555-0100") true 23456 (str "T0")).2.2.2 4 (by rfl) (by decide)
      (by decide) (by decide) (by rfl) (by rfl)⟩⟩

/-! ## Claim C5 -/

theorem applyCuisine_filter (c : Option Str) (l : List Restaurant) :
    applyCuisine c l = l.filter (cuisineOK c) := by
  cases c with
  | none =>
    have hfun : cuisineOK none = fun _ => true := rfl
    rw [hfun]
    simp [applyCuisine]
  | some s =>
    by_cases h : s.isEmpty
    · have hfun : cuisineOK (some s) = fun _ => true := by
        funext r; simp [cuisineOK, h]
      rw [hfun]
      simp [applyCuisine, h]
    · have hfun : cuisineOK (some s) = fun r =>
          lowerStr r.cuisine == lowerStr s || subStr (lowerStr s) (lowerStr r.cuisine) := by
        funext r; simp [cuisineOK, h]
      rw [hfun]
      simp [applyCuisine, h]

theorem applyLocation_filter (c : Option Str) (l : List Restaurant) :
    applyLocation c l = l.filter (locationOK c) := by
  cases c with
  | none =>
    have hfun : locationOK none = fun _ => true := rfl
    rw [hfun]
    simp [applyLocation]
  | some s =>
    by_cases h : s.isEmpty
    · have hfun : locationOK (some s) = fun _ => true := by
        funext r; simp [locationOK, h]
      rw [hfun]
      simp [applyLocation, h]
    · have hfun : locationOK (some s) = fun r =>
          lowerStr r.location == lowerStr s || subStr (lowerStr s) (lowerStr r.location)
            || subStr (lowerStr s) (lowerStr r.address) := by
        funext r; simp [locationOK, h]
      rw [hfun]
      simp [applyLocation, h]

theorem applyPartySize_filter (c : Option PyNum) (l : List Restaurant) :
    applyPartySize c l = l.filter (partySizeOK c) := by
  cases c with
  | none =>
    have hfun : partySizeOK none = fun _ => true := rfl
    rw [hfun]
    simp [applyPartySize]
  | some v =>
    by_cases h : numTruthy v
    · cases hp : pyInt v with
      | none =>
        have hfun : partySizeOK (some v) = fun _ => true := by
          funext r; simp [partySizeOK, h, hp]
        rw [hfun]
        simp [applyPartySize, h, hp]
      | some n =>
        have hfun : partySizeOK (some v) = fun r : Restaurant =>
            r.seating_capacity ≥ n := by
          funext r; simp [partySizeOK, h, hp]
        rw [hfun]
        simp [applyPartySize, h, hp]
    · have hfun : partySizeOK (some v) = fun _ => true := by
        funext r; simp [partySizeOK, h]
      rw [hfun]
      simp [applyPartySize, h]

theorem applyText_filter (c : Option Str) (l : List Restaurant) :
    applyText c l = l.filter (textOK c) := by
  cases c with
  | none =>
    have hfun : textOK none = fun _ => true := rfl
    rw [hfun]
    simp [applyText]
  | some s =>
    by_cases h : s.isEmpty
    · have hfun : textOK (some s) = fun _ => true := by
        funext r; simp [textOK, h]
      rw [hfun]
      simp [applyText, h]
    · have hfun : textOK (some s) = fun r =>
          subStr (lowerStr s) (lowerStr r.name)
            || subStr (lowerStr s) (lowerStr r.description)
            || r.tags.any (fun tag => subStr (lowerStr s) (lowerStr tag)) := by
        funext r; simp [textOK, h]
      rw [hfun]
      simp [applyText, h]

/-- C5: for every criteria set, `get_restaurants` returns exactly the
catalog records satisfying all supplied filters conjunctively (cuisine
exact-or-substring, location substring of location or address,
party-size capacity bound with non-numeric values ignored, text
substring of name, description, or any tag, all case-insensitively),
and returns the full catalog for an absent or empty criteria
dictionary.  The embedded function is pure, so the catalog itself is
never modified. -/
theorem C5_search_is_conjunctive_filter (rs : List Restaurant) (cr : Criteria) :
    get_restaurants rs (some cr) = rs.filter (matchesCriteria cr) ∧
    get_restaurants rs none = rs := by
  constructor
  · show applyText cr.text (applyPartySize cr.party_size
      (applyLocation cr.location (applyCuisine cr.cuisine rs)))
        = rs.filter (matchesCriteria cr)
    rw [applyCuisine_filter, applyLocation_filter, applyPartySize_filter,
      applyText_filter, List.filter_filter, List.filter_filter,
      List.filter_filter]
    apply List.filter_congr
    intro r _
    unfold matchesCriteria
    cases cuisineOK cr.cuisine r <;> cases locationOK cr.location r <;>
      cases partySizeOK cr.party_size r <;> cases textOK cr.text r <;> rfl
  · rfl

/-! ## Claim C3 -/

theorem insSorted_headOpt (key : Restaurant → Nat) (r : Restaurant)
    (s : List Restaurant) :
    (insSorted key r s).head? = some (match s.head? with
      | none => r
      | some y => if key y < key r then y else r) := by
  cases s with
  | nil => rfl
  | cons x xs =>
    show (if key x < key r then x :: insSorted key r xs else r :: x :: xs).head? = _
    split_ifs with h <;> simp [h]

theorem foldl_min (key : Restaurant → Nat) :
    ∀ (t : List Restaurant) (a : Restaurant),
      t.foldl (fun b r => if key r < key b then r else b) a =
        match firstMinBy key t with
        | none => a
        | some y => if key y < key a then y else a := by
  intro t
  induction t with
  | nil => intro a; rfl
  | cons h t ih =>
    intro a
    show t.foldl _ (if key h < key a then h else a) = _
    rw [ih]
    rw [show firstMinBy key (h :: t)
      = some (t.foldl (fun b r => if key r < key b then r else b) h) from rfl]
    rw [ih h]
    cases hfm : firstMinBy key t with
    | none => rfl
    | some z =>
      dsimp only
      split_ifs <;> first | rfl | omega

theorem sortByKey_head (key : Restaurant → Nat) :
    ∀ l : List Restaurant, (sortByKey key l).head? = firstMinBy key l := by
  intro l
  induction l with
  | nil => rfl
  | cons x xs ih =>
    show (insSorted key x (sortByKey key xs)).head? = _
    rw [insSorted_headOpt, ih]
    rw [show firstMinBy key (x :: xs)
      = some (xs.foldl (fun b r => if key r < key b then r else b) x) from rfl]
    rw [foldl_min]

/-- C3: for every nonempty query, `find_restaurant_by_name` returns the
first record matching the query exactly (case-insensitively) when one
exists, and otherwise behaves as the specification words state: among
case-insensitive substring matches it returns none when there are none,
the unique one when there is exactly one, and otherwise the first
encountered record whose name length is closest to the query length
(`find_by_name_spec` transcribes those words; a stable sort by the
length-difference key followed by taking the head picks exactly that
element). -/
theorem C3_find_matches_spec (rs : List Restaurant) (name : Str)
    (h : name ≠ []) :
    find_restaurant_by_name rs name = find_by_name_spec rs name := by
  unfold find_restaurant_by_name find_by_name_spec
  have hne : name.isEmpty = false := by
    cases name with
    | nil => exact absurd rfl h
    | cons c cs => rfl
  rw [hne]
  simp only [Bool.false_eq_true, if_false]
  cases hex : rs.find? (fun r => lowerStr r.name == lowerStr name) with
  | some r => rfl
  | none =>
    cases hms : rs.filter (fun r => subStr (lowerStr name) (lowerStr r.name)) with
    | nil => rfl
    | cons a t =>
      cases t with
      | nil => rfl
      | cons b t2 => exact sortByKey_head (lenKey name) (a :: b :: t2)

theorem C3_witness :
    find_restaurant_by_name demoState.restaurants (str "Paradise")
      = find_by_name_spec demoState.restaurants (str "Paradise") ∧
    find_by_name_spec demoState.restaurants (str "Paradise") = some demoPasta :=
  ⟨C3_find_matches_spec demoState.restaurants (str "Paradise") (by decide),
   by rfl⟩

/-! ## Claim C1 -/

theorem codeOf_injective : Function.Injective codeOf := by
  intro m n h
  unfold codeOf at h
  exact natDigits_inj m n (List.append_cancel_left h)

/-- The codes issued by a run are, in order, a sublist of the `RS-`
strings of the `randint` draws of the calls. -/
theorem issuedCodes_sublist :
    ∀ (st : DMState) (calls : List BookCall),
      (issuedCodes (runBookings st calls).1).Sublist
        (calls.map (fun c => codeOf c.codeNum)) := by
  intro st calls
  induction calls generalizing st with
  | nil => simp [runBookings, issuedCodes]
  | cons c cs ih =>
    show (issuedCodes ((make_reservation st c.restaurant_name c.date c.time
      c.party_size c.user_name c.user_phone c.draw c.codeNum c.now).1 ::
        (runBookings _ cs).1)).Sublist _
    have hm := make_reservation_cases st c.restaurant_name c.date c.time
      c.party_size c.user_name c.user_phone c.draw c.codeNum c.now
    unfold issuedCodes
    rw [List.filterMap_cons, List.map_cons]
    cases hs : (make_reservation st c.restaurant_name c.date c.time
        c.party_size c.user_name c.user_phone c.draw c.codeNum c.now).1.success with
    | false =>
      simp only [Bool.false_eq_true, if_false]
      exact (ih _).cons _
    | true =>
      have hav : (check_availability st.restaurants c.restaurant_name c.date
          c.time c.party_size c.draw).available = true := by
        rw [← hm.1]; exact hs
      obtain ⟨hcode, _, _, _⟩ := hm.2.2 hav
      simp only [if_true, hcode]
      exact (ih _).cons₂ _

/-- Every reservation stored by a run of bookings remains keyed by its
own confirmation code. -/
theorem runBookings_key_inv :
    ∀ (st : DMState) (calls : List BookCall),
      (∀ p ∈ st.reservations, p.2.confirmation_code = p.1) →
      ∀ p ∈ (runBookings st calls).2.reservations, p.2.confirmation_code = p.1 := by
  intro st calls
  induction calls generalizing st with
  | nil => intro h; exact h
  | cons c cs ih =>
    intro h
    show ∀ p ∈ (runBookings (make_reservation st c.restaurant_name c.date
      c.time c.party_size c.user_name c.user_phone c.draw c.codeNum
        c.now).2 cs).2.reservations, _
    apply ih
    intro p hp
    have hm := make_reservation_cases st c.restaurant_name c.date c.time
      c.party_size c.user_name c.user_phone c.draw c.codeNum c.now
    cases hav : (check_availability st.restaurants c.restaurant_name c.date
        c.time c.party_size c.draw).available with
    | false =>
      rw [hm.2.1 hav] at hp
      exact h p hp
    | true =>
      obtain ⟨_, _, _, hres⟩ := hm.2.2 hav
      rw [hres] at hp
      rcases mem_dictInsert _ _ _ p hp with hmem | hEq
      · exact h p hmem
      · rw [hEq]

/-- A booking call that succeeds against the demo catalog (the grill has
no opening-hours entries, so it is treated as open; the draw is a hit). -/
def demoCall : BookCall :=
  { restaurant_name := str "paradise grill"
    date := str "2026-10-12"
    time := str "19:00"
    party_size := 2
    user_name := str "Ann Lee"
    user_phone := str "555-0100"
    draw := true
    codeNum := 10000
    now := str "2026-10-12T09:00:00" }

/-- The same call with a different `randint` draw. -/
def demoCallB : BookCall := { demoCall with codeNum := 10001 }

/-- C1 counterexample: two successful bookings whose `randint` draws
collide (both 10000) are issued the same confirmation code "RS-10000",
so the issued codes of the run are not pairwise distinct. -/
theorem C1_counterexample :
    ¬ (issuedCodes (runBookings demoState [demoCall, demoCall]).1).Nodup := by
  decide

/-- C1 as amended: each successful booking is issued the code `RS-`
followed by the decimal value of its `randint` draw, so the issued
codes are pairwise distinct whenever the integer draws of the calls are
pairwise distinct; the generator performs no deduplication, and on a
colliding draw the later booking overwrites the record stored under
that code; a stored reservation record always carries the code under
which it is keyed, and a record is never mutated otherwise. -/
theorem C1_codes_distinct_for_distinct_draws (st : DMState)
    (calls : List BookCall) :
    ((calls.map BookCall.codeNum).Nodup →
      (issuedCodes (runBookings st calls).1).Nodup) ∧
    ((∀ p ∈ st.reservations, p.2.confirmation_code = p.1) →
      ∀ p ∈ (runBookings st calls).2.reservations,
        p.2.confirmation_code = p.1) := by
  constructor
  · intro hnd
    have hmap : (calls.map (fun c => codeOf c.codeNum)).Nodup := by
      rw [show (calls.map fun c => codeOf c.codeNum)
        = (calls.map BookCall.codeNum).map codeOf by rw [List.map_map]; rfl]
      exact hnd.map codeOf_injective
    exact List.Nodup.sublist (issuedCodes_sublist st calls) hmap
  · exact runBookings_key_inv st calls

theorem C1_witness :
    (issuedCodes (runBookings demoState [demoCall, demoCallB]).1).Nodup ∧
    (∀ p ∈ (runBookings demoState [demoCall, demoCallB]).2.reservations,
      p.2.confirmation_code = p.1) :=
  ⟨(C1_codes_distinct_for_distinct_draws demoState [demoCall, demoCallB]).1
      (by decide),
   (C1_codes_distinct_for_distinct_draws demoState [demoCall, demoCallB]).2
      (by intro p hp; exact absurd hp (List.not_mem_nil p))⟩

end FoodieSpot
